import Mathlib

/-!
Verification of the Git LFS source-control core (UEGitPlugin).

Shallow embedding of the parts of the plugin needed by the claims:
* the composite per-file state model and the derived presentation state
  (`FGitLFSSourceControlState::GetGitState`, GitLFSSourceControlState.cpp),
* the porcelain status parser
  (`FGitLFSSourceControlUtils::ParseGitStatus` / `ParseFileStatusResult`,
  GitLFSSourceControlUtils.cpp),
* the CheckIn worker control flow
  (`FGitLFSCheckInWorker::Execute`, Operations/GitLFSCheckIn.cpp).
-/

/-- Enum `EGitLFSFileState` (GitLFSSourceControlState.h): what diff reports. -/
inductive EGitLFSFileState
  | unset
  | unknown
  | added
  | copied
  | deleted
  | modified
  | renamed
  | missing
  | unmerged
  deriving DecidableEq, Repr, Fintype

/-- Enum `EGitLFSTreeState` (GitLFSSourceControlState.h): where the file is in the tree. -/
inductive EGitLFSTreeState
  | unset
  | unmodified
  | working
  | staged
  | untracked
  | ignored
  | notInRepo
  deriving DecidableEq, Repr, Fintype

/-- Enum `EGitLFSLockState` (GitLFSSourceControlState.h): LFS lock status. -/
inductive EGitLFSLockState
  | unset
  | unknown
  | unlockable
  | notLocked
  | locked
  | lockedOther
  deriving DecidableEq, Repr, Fintype

/-- Enum `EGitLFSRemoteState` (GitLFSSourceControlState.h): status at HEAD. -/
inductive EGitLFSRemoteState
  | unset
  | upToDate
  | notAtHead
  | notLatest
  deriving DecidableEq, Repr, Fintype

/-- Enum `EGitLFSState` (GitLFSSourceControlState.h): consolidated presentation state.
The `#if 0` variants AddedAtHead/DeletedAtHead are compiled out in the source and
therefore omitted. -/
inductive EGitLFSState
  | unset
  | notAtHead
  | lockedOther
  | notLatest
  | unmerged
  | added
  | deleted
  | modified
  | checkedOut
  | untracked
  | lockable
  | unmodified
  | ignored
  | none
  deriving DecidableEq, Repr, Fintype

/-- Struct `FGitLFSState` (GitLFSSourceControlState.h): the composite per-file state.
Only the four enum dimensions are embedded; LockUser/HeadBranch strings play no
role in the claims about `GetGitState`. -/
structure FGitLFSState where
  FileState : EGitLFSFileState
  TreeState : EGitLFSTreeState
  LockState : EGitLFSLockState
  RemoteState : EGitLFSRemoteState
  deriving DecidableEq, Repr, Fintype

/-- `FGitLFSSourceControlState::IsSourceControlled` (GitLFSSourceControlState.cpp):
TreeState is none of Untracked, Ignored, NotInRepo. -/
def IsSourceControlled (s : FGitLFSState) : Bool :=
  s.TreeState ≠ EGitLFSTreeState.untracked &&
  s.TreeState ≠ EGitLFSTreeState.ignored &&
  s.TreeState ≠ EGitLFSTreeState.notInRepo

/-- `FGitLFSSourceControlState::IsCurrent` (GitLFSSourceControlState.cpp):
RemoteState is neither NotAtHead nor NotLatest. -/
def IsCurrent (s : FGitLFSState) : Bool :=
  s.RemoteState ≠ EGitLFSRemoteState.notAtHead &&
  s.RemoteState ≠ EGitLFSRemoteState.notLatest

/-- `FGitLFSSourceControlState::CanCheckout` (GitLFSSourceControlState.cpp):
false for Unlockable, otherwise NotLocked and current. -/
def CanCheckout (s : FGitLFSState) : Bool :=
  if s.LockState = EGitLFSLockState.unlockable then
    false
  else
    s.LockState = EGitLFSLockState.notLocked && IsCurrent s

/-- `FGitLFSSourceControlState::GetGitState` (GitLFSSourceControlState.cpp, lines
401-459), translated branch for branch: the RemoteState switch, the LockedOther
check, the NotLatest check, the FileState switch, then Untracked, Locked, and the
IsSourceControlled/CanCheckout tail. -/
def GetGitState (s : FGitLFSState) : EGitLFSState :=
  if s.RemoteState = EGitLFSRemoteState.notAtHead then
    EGitLFSState.notAtHead
  else if s.LockState = EGitLFSLockState.lockedOther then
    EGitLFSState.lockedOther
  else if s.RemoteState = EGitLFSRemoteState.notLatest then
    EGitLFSState.notLatest
  else
    match s.FileState with
    | EGitLFSFileState.unmerged => EGitLFSState.unmerged
    | EGitLFSFileState.added => EGitLFSState.added
    | EGitLFSFileState.deleted => EGitLFSState.deleted
    | EGitLFSFileState.modified => EGitLFSState.modified
    | _ =>
      if s.TreeState = EGitLFSTreeState.untracked then
        EGitLFSState.untracked
      else if s.LockState = EGitLFSLockState.locked then
        EGitLFSState.checkedOut
      else if IsSourceControlled s then
        if CanCheckout s then EGitLFSState.lockable else EGitLFSState.unmodified
      else
        EGitLFSState.none

/-- Modelled from the spec wording of the priority cascade (claim C2):
RemoteState NotAtHead > LockedOther > NotLatest >
FileState (Unmerged/Added/Deleted/Modified) > Untracked > Locked >
(SourceControlled ? Lockable/Unmodified : None), written as a flat ordered
guard list. The Lockable-versus-Unmodified split inside the SourceControlled
arm is the CanCheckout test of the source. -/
def gitStateCascade (s : FGitLFSState) : EGitLFSState :=
  if s.RemoteState = EGitLFSRemoteState.notAtHead then
    EGitLFSState.notAtHead
  else if s.LockState = EGitLFSLockState.lockedOther then
    EGitLFSState.lockedOther
  else if s.RemoteState = EGitLFSRemoteState.notLatest then
    EGitLFSState.notLatest
  else if s.FileState = EGitLFSFileState.unmerged then
    EGitLFSState.unmerged
  else if s.FileState = EGitLFSFileState.added then
    EGitLFSState.added
  else if s.FileState = EGitLFSFileState.deleted then
    EGitLFSState.deleted
  else if s.FileState = EGitLFSFileState.modified then
    EGitLFSState.modified
  else if s.TreeState = EGitLFSTreeState.untracked then
    EGitLFSState.untracked
  else if s.LockState = EGitLFSLockState.locked then
    EGitLFSState.checkedOut
  else if IsSourceControlled s then
    if CanCheckout s then EGitLFSState.lockable else EGitLFSState.unmodified
  else
    EGitLFSState.none

/-- C2: the derived presentation state is a pure function of the composite
(FileState, TreeState, LockState, RemoteState) computed by the priority cascade
RemoteState NotAtHead > LockedOther > NotLatest > FileState
(Unmerged/Added/Deleted/Modified) > Untracked > Locked >
(SourceControlled ? Lockable/Unmodified : None): `GetGitState` agrees with the
cascade on every composite state. -/
theorem getGitState_eq_cascade : ∀ s : FGitLFSState, GetGitState s = gitStateCascade s := by
  intro s
  obtain ⟨f, t, l, r⟩ := s
  cases f <;> cases t <;> cases l <;> cases r <;> rfl

/-- Guard of the first branch of `ParseGitStatus`
(GitLFSSourceControlUtils.cpp, lines 1121-1124): a 'U' in either column, or
both columns 'A', or both columns 'D'. -/
def isUnmergedXY (x y : Char) : Bool :=
  (x = 'U' || y = 'U') || (x = 'A' && y = 'A') || (x = 'D' && y = 'D')

/-- `FGitLFSSourceControlUtils::ParseGitStatus` (GitLFSSourceControlUtils.cpp,
lines 1118-1186), translated branch for branch. `x` is `Line[0]` (index column)
and `y` is `Line[1]` (work-tree column) of a porcelain status line `XY path`.
The C++ function writes through two out-parameters: `OutFileState` is written on
every control path, but `OutTreeState` is written only when one of the columns
is a space or on the unmerged/untracked/ignored branches. The tree component is
therefore an `Option`: `some t` means the function wrote `t`; `none` means it
returned without writing, so the caller keeps whatever value its variable held
before the call. -/
def ParseGitStatus (x y : Char) : EGitLFSFileState × Option EGitLFSTreeState :=
  if isUnmergedXY x y then
    (EGitLFSFileState.unmerged, some EGitLFSTreeState.working)
  else
    let tree0 : Option EGitLFSTreeState :=
      if x = ' ' then some EGitLFSTreeState.working
      else if y = ' ' then some EGitLFSTreeState.staged
      else none
    if x = '?' || y = '?' then
      (EGitLFSFileState.unknown, some EGitLFSTreeState.untracked)
    else if x = '!' || y = '!' then
      (EGitLFSFileState.unknown, some EGitLFSTreeState.ignored)
    else if x = 'A' then
      (EGitLFSFileState.added, tree0)
    else if x = 'D' then
      (EGitLFSFileState.deleted, tree0)
    else if y = 'D' then
      (EGitLFSFileState.missing, tree0)
    else if x = 'M' || y = 'M' then
      (EGitLFSFileState.modified, tree0)
    else if x = 'R' then
      (EGitLFSFileState.renamed, tree0)
    else if x = 'C' then
      (EGitLFSFileState.copied, tree0)
    else
      (EGitLFSFileState.unknown, tree0)

/-- Per-file branch of `FGitLFSSourceControlUtils::ParseFileStatusResult`
(GitLFSSourceControlUtils.cpp, lines 1218-1272). `statusLine` is the porcelain
line found for the queried file in the results map, represented by its two
status characters, or `none` when the file is absent from the porcelain output.
`onDisk` is `FPaths::FileExists(File)`. `junkTree` stands for the value of the
uninitialized local `TreeState` that the caller passes to `ParseGitStatus` and
copies into the state afterwards: it is what the file's TreeState becomes when
`ParseGitStatus` leaves its out-parameter unwritten. -/
def ParseFileStatusEntry (statusLine : Option (Char × Char)) (onDisk : Bool)
    (junkTree : EGitLFSTreeState) : EGitLFSFileState × EGitLFSTreeState :=
  match statusLine with
  | some (x, y) =>
    let r := ParseGitStatus x y
    (r.1, (r.2).getD junkTree)
  | none =>
    (EGitLFSFileState.unknown,
      if onDisk then EGitLFSTreeState.unmodified else EGitLFSTreeState.notInRepo)

/-- Column rule of the status decision table: Working when the index column is
clean (space), Staged when the work-tree column is clean, and no assignment at
all when both columns carry a status character. -/
def columnTree (x y : Char) : Option EGitLFSTreeState :=
  if x = ' ' then some EGitLFSTreeState.working
  else if y = ' ' then some EGitLFSTreeState.staged
  else none

/-- Decision table of claim C3 in its row order, with the one amendment the code
forces: in the `Y=D` row the parser assigns TreeState Working only when the
index column is a space; when both columns are non-space it leaves TreeState
unassigned (`none`). Rows whose TreeState the claim does not name use the
column rule `columnTree`. -/
def statusDecisionTable (x y : Char) : EGitLFSFileState × Option EGitLFSTreeState :=
  if isUnmergedXY x y then
    (EGitLFSFileState.unmerged, some EGitLFSTreeState.working)
  else if x = '?' && y = '?' then
    (EGitLFSFileState.unknown, some EGitLFSTreeState.untracked)
  else if x = '!' && y = '!' then
    (EGitLFSFileState.unknown, some EGitLFSTreeState.ignored)
  else if x = 'A' then
    (EGitLFSFileState.added, columnTree x y)
  else if x = 'D' then
    (EGitLFSFileState.deleted, some EGitLFSTreeState.staged)
  else if y = 'D' then
    (EGitLFSFileState.missing, if x = ' ' then some EGitLFSTreeState.working else none)
  else if x = 'M' || y = 'M' then
    (EGitLFSFileState.modified, columnTree x y)
  else if x = 'R' then
    (EGitLFSFileState.renamed, columnTree x y)
  else if x = 'C' then
    (EGitLFSFileState.copied, columnTree x y)
  else
    (EGitLFSFileState.unknown, columnTree x y)

/-- Status-character pairs that `git status --porcelain` can emit, per the
short-format table of the git-status documentation: ordinary index/work-tree
combinations, the seven unmerged pairs, untracked and ignored. -/
def porcelainPairs : List (Char × Char) :=
  [(' ', 'M'), (' ', 'T'), (' ', 'D'), (' ', 'R'), (' ', 'C'),
   ('M', ' '), ('M', 'M'), ('M', 'T'), ('M', 'D'),
   ('T', ' '), ('T', 'M'), ('T', 'T'), ('T', 'D'),
   ('A', ' '), ('A', 'M'), ('A', 'T'), ('A', 'D'),
   ('D', ' '),
   ('R', ' '), ('R', 'M'), ('R', 'T'), ('R', 'D'),
   ('C', ' '), ('C', 'M'), ('C', 'T'), ('C', 'D'),
   ('D', 'D'), ('A', 'U'), ('U', 'D'), ('U', 'A'), ('D', 'U'), ('A', 'A'), ('U', 'U'),
   ('?', '?'), ('!', '!')]

/-- C3 as stated is false at the porcelain line `MD path` (modified in the
index, deleted in the work tree): the decision table row `Y=D` of the claim
demands the pair (Missing, Working), but the parser assigns FileState Missing
and leaves TreeState unwritten, so the file keeps the caller's uninitialized
value (here it surfaces as Staged when the junk value is Staged). -/
theorem parseGitStatus_MD_counterexample :
  ParseGitStatus 'M' 'D' = (EGitLFSFileState.missing, (none : Option EGitLFSTreeState)) ∧
  ParseGitStatus 'M' 'D' ≠ (EGitLFSFileState.missing, some EGitLFSTreeState.working) ∧
  ParseFileStatusEntry (some ('M', 'D')) true EGitLFSTreeState.staged =
    (EGitLFSFileState.missing, EGitLFSTreeState.staged) := by
  refine ⟨rfl, ?_, rfl⟩
  decide

/-- C3 amended: on every porcelain status line the parser assigns exactly the
(FileState, TreeState written?) pair of the decision table, where the `Y=D` row
yields Missing with TreeState Working only when the index column is a space and
leaves TreeState unassigned otherwise, and rows without a named TreeState follow
the column rule (index clean => Working, work-tree clean => Staged, neither =>
unassigned); and every queried file absent from the porcelain output is assigned
(Unknown, Unmodified) when it exists on disk and (Unknown, NotInRepo) when it
does not. -/
theorem parseGitStatus_matches_table :
  (∀ p ∈ porcelainPairs, ParseGitStatus p.1 p.2 = statusDecisionTable p.1 p.2) ∧
  (∀ onDisk : Bool, ∀ junkTree : EGitLFSTreeState,
    ParseFileStatusEntry none onDisk junkTree =
      (EGitLFSFileState.unknown,
        if onDisk then EGitLFSTreeState.unmodified else EGitLFSTreeState.notInRepo)) := by
  constructor
  · decide
  · intro onDisk junkTree
    rfl

/-- Witness for the amended C3 theorem: the table row for the staged-delete line
`D path` and the missing-file clause, both at concrete inputs. -/
theorem parseGitStatus_matches_table_witness :
  ParseGitStatus 'D' ' ' = statusDecisionTable 'D' ' ' ∧
  ParseFileStatusEntry none true EGitLFSTreeState.unset =
    (EGitLFSFileState.unknown, EGitLFSTreeState.unmodified) := by
  refine ⟨parseGitStatus_matches_table.1 ('D', ' ') (by decide), ?_⟩
  have h := parseGitStatus_matches_table.2 true EGitLFSTreeState.unset
  simpa using h

/-- Outcomes of the externally observable sub-steps of one run of
`FGitLFSCheckInWorker::Execute` (Operations/GitLFSCheckIn.cpp, lines 18-179).
Each field records whether the corresponding call succeeded, in source order:
`filesNonEmpty` is `Command.Files.Num() > 0`; `tempFileOk` is
`CommitMsgFile.GetFilename().Len() > 0`; `providerOk` is the module provider
being non-null; `addOk`/`commitOk` are `Helpers.RunAdd`/`Helpers.RunCommit`;
`hasRemoteBranch` is `Helpers.GetRemoteBranchName`; `diffOk` is
`Helpers.RunDiff` and `logOk` is `Helpers.GetLog` (whichever of the two runs);
`committedNonEmpty` is `CommittedFiles.Num() > 0`; `pushOk` is the first
`Helpers.RunPush`; `outOfDateError` is whether some push error message matched
the rejected/non-fast-forward/fetch-first/cannot-lock-ref patterns;
`fetchOk`/`pullOk`/`retryPushOk` are the recovery calls `Helpers.FetchRemote`,
`Helpers.PullOrigin` and the second `Helpers.RunPush`; `allErrorsRedundant` is
the condition of the `RemoveRedundantErrors` upgrade run by the final
`RunUpdateStatus` (at least one error message and every error message contains
the outside-repository filter). -/
structure FCheckInRun where
  filesNonEmpty : Bool
  tempFileOk : Bool
  providerOk : Bool
  addOk : Bool
  commitOk : Bool
  hasRemoteBranch : Bool
  diffOk : Bool
  logOk : Bool
  committedNonEmpty : Bool
  pushOk : Bool
  outOfDateError : Bool
  fetchOk : Bool
  pullOk : Bool
  retryPushOk : Bool
  allErrorsRedundant : Bool
  deriving DecidableEq, Repr

/-- Observable result of one `FGitLFSCheckInWorker::Execute` run:
`returnValue` is the value returned by `Execute`, which
`FGitLFSSourceControlCommand::DoWork` stores into `bCommandSuccessful` and
`ReturnResults` maps to Succeeded/Failed; `successMessageSet` records whether
`Operation->SetSuccessMessage(ParseCommitResults(...))` ran; `pushAttempted`
and `pushSucceeded` describe the final push attempt, both false when no push
was needed. -/
structure FCheckInResult where
  returnValue : Bool
  successMessageSet : Bool
  pushAttempted : Bool
  pushSucceeded : Bool
  deriving DecidableEq, Repr

/-- Commit step of claim C1: files were staged and committed. In the source this
is `bDoCommit` still being true after `RunAdd` and `RunCommit` (lines 23-41),
which requires the temp commit-message file and the provider to be available
and the file list to be non-empty. -/
def commitStepSucceeded (r : FCheckInRun) : Bool :=
  r.tempFileOk && r.providerOk && r.filesNonEmpty && r.addOk && r.commitOk

/-- `FGitLFSCheckInWorker::Execute` (Operations/GitLFSCheckIn.cpp, lines
18-179), translated branch for branch over the sub-step outcomes. The early
exits return false (lines 29-31 and 176-178). `bDoCommit` is re-assigned from
`RunAdd` and `RunCommit` (lines 39-40); on commit success the operation's
success message is set (line 56). The diff step picks `RunDiff` against the
remote branch or `GetLog` (lines 69-80); `bUnpushedFiles` starts true and
becomes `CommittedFiles.Num() > 0` when the diff succeeded (lines 82-90). A
push is attempted iff `bUnpushedFiles` (lines 95-142), with the out-of-date
fetch/pull/retry path (lines 102-140); otherwise `bCommandSuccessful` is set
true without a push (line 145). The final `RunUpdateStatus` (line 171) calls
`RemoveRedundantErrors`, which upgrades `bCommandSuccessful` to true when the
command failed but every recorded error contained the outside-repository
filter (GitLFSSourceControlUtils.cpp, lines 1008-1014). -/
def CheckInExecute (r : FCheckInRun) : FCheckInResult :=
  if !r.tempFileOk then
    ⟨false, false, false, false⟩
  else if !r.providerOk then
    ⟨false, false, false, false⟩
  else
    let bDoCommit := r.filesNonEmpty && r.addOk && r.commitOk
    let bDiffSuccess := if r.hasRemoteBranch then r.diffOk else r.logOk
    let bUnpushedFiles := if bDiffSuccess then r.committedNonEmpty else true
    let interim : FCheckInResult :=
      if bUnpushedFiles then
        if r.pushOk then
          ⟨true, bDoCommit, true, true⟩
        else if r.outOfDateError && r.fetchOk && r.pullOk then
          ⟨r.retryPushOk, bDoCommit, true, r.retryPushOk⟩
        else
          ⟨false, bDoCommit, true, false⟩
      else
        ⟨true, bDoCommit, false, false⟩
    if !interim.returnValue && r.allErrorsRedundant then
      ⟨true, interim.successMessageSet, interim.pushAttempted, interim.pushSucceeded⟩
    else
      interim

/-- Run in which the commit succeeds and the push fails for a reason other than
being out of date: files staged and committed, remote branch known, diff lists
the fresh commit, first push fails, no out-of-date pattern in the errors, no
redundant-error upgrade. -/
def checkInPushFailRun : FCheckInRun :=
  { filesNonEmpty := true
    tempFileOk := true
    providerOk := true
    addOk := true
    commitOk := true
    hasRemoteBranch := true
    diffOk := true
    logOk := false
    committedNonEmpty := true
    pushOk := false
    outOfDateError := false
    fetchOk := false
    pullOk := false
    retryPushOk := false
    allErrorsRedundant := false }

/-- C1 as stated is false: in a CheckIn run whose commit step succeeds but whose
push fails irrecoverably, `Execute` returns false, so the command surfaces as
Failed, not as success. -/
theorem checkIn_pushFail_counterexample :
  commitStepSucceeded checkInPushFailRun = true ∧
  (CheckInExecute checkInPushFailRun).pushAttempted = true ∧
  (CheckInExecute checkInPushFailRun).pushSucceeded = false ∧
  (CheckInExecute checkInPushFailRun).returnValue = false := by
  decide

/-- C1 amended: in every CheckIn run whose commit step succeeds, the operation's
success message is set even when the subsequent push does not succeed, but the
command's returned result is success exactly when the push succeeded, or no
push was attempted, or the redundant-error upgrade fired. -/
theorem checkIn_commit_message_and_result :
  ∀ r : FCheckInRun, commitStepSucceeded r = true →
    (CheckInExecute r).successMessageSet = true ∧
    ((CheckInExecute r).returnValue = true ↔
      ((CheckInExecute r).pushAttempted = false ∨
       (CheckInExecute r).pushSucceeded = true ∨
       r.allErrorsRedundant = true)) := by
  rintro ⟨f1, f2, f3, f4, f5, f6, f7, f8, f9, f10, f11, f12, f13, f14, f15⟩ h
  simp only [commitStepSucceeded, Bool.and_eq_true] at h
  obtain ⟨⟨⟨⟨h2, h3⟩, h1⟩, h4⟩, h5⟩ := h
  subst h1 h2 h3 h4 h5
  cases f6 <;> cases f7 <;> cases f8 <;> cases f9 <;> cases f10 <;> cases f11 <;>
    cases f12 <;> cases f13 <;> cases f14 <;> cases f15 <;> decide

/-- Witness for the amended C1 theorem at the concrete push-failure run. -/
theorem checkIn_commit_message_and_result_witness :
  commitStepSucceeded checkInPushFailRun = true ∧
  ((CheckInExecute checkInPushFailRun).successMessageSet = true ∧
    ((CheckInExecute checkInPushFailRun).returnValue = true ↔
      ((CheckInExecute checkInPushFailRun).pushAttempted = false ∨
       (CheckInExecute checkInPushFailRun).pushSucceeded = true ∨
       checkInPushFailRun.allErrorsRedundant = true))) :=
  ⟨by decide, checkIn_commit_message_and_result checkInPushFailRun (by decide)⟩
